import Mathlib

/-!
Shallow embedding of the audience engagement tracking core
(`src/sensors/engagement_analyzer.py`) of DynamicAdvertisementBoard.

Timestamps (`time.time()` values) are modelled as rationals, pixel
coordinates as integers (the source computes centroids with Python's
integer floor division `//`).  The source compares Euclidean distances
`sqrt(dx^2+dy^2)` against thresholds; over nonnegative quantities this is
equivalent to comparing the squared distance against the squared
threshold, which is how distances are carried here.  Python's insertion
ordered `dict` of active faces is modelled as an association list with
unique keys; `collections.deque(maxlen=n)` as a list whose append drops
the head at capacity.
-/

namespace EngagementAnalyzer

/-- Configuration constants of the source (lines 28-36). -/
def ENGAGEMENT_THRESHOLD : ℚ := 3/2

def STABILITY_THRESHOLD : ℤ := 80

def TRACKING_WINDOW : ℕ := 15

/-- A face bounding box `(x1, y1, x2, y2)` in pixel coordinates. -/
abbrev Box := ℤ × ℤ × ℤ × ℤ

/-- The per-identity tracking state kept in `active_faces` (source lines
335-343): entry and exit timestamps, the three rolling observation
windows, and the first and latest centroid. -/
structure FaceData where
  entry_time : ℚ
  exit_time : ℚ
  age_queue : List ℤ
  gender_queue : List String
  emotion_queue : List String
  initial_centroid : ℤ × ℤ
  last_centroid : ℤ × ℤ
  deriving DecidableEq, Repr

/-- Squared displacement between `initial_centroid` and `last_centroid`
(source lines 68-70 compute `movement = sqrt(dx**2 + dy**2)`). -/
def movementSq (d : FaceData) : ℤ :=
  (d.last_centroid.1 - d.initial_centroid.1) ^ 2 +
    (d.last_centroid.2 - d.initial_centroid.2) ^ 2

/-- `calculate_engagement` (source lines 61-73):
`duration >= ENGAGEMENT_THRESHOLD and movement <= STABILITY_THRESHOLD`,
with the movement comparison squared on both sides. -/
def calculate_engagement (d : FaceData) : Bool :=
  ENGAGEMENT_THRESHOLD ≤ d.exit_time - d.entry_time ∧
    movementSq d ≤ STABILITY_THRESHOLD ^ 2

/-- `deque(maxlen=cap).append`: when the deque is full the oldest
(leftmost) element is evicted. -/
def dequeAppend (cap : ℕ) (q : List α) (x : α) : List α :=
  if q.length = cap then q.tail ++ [x] else q ++ [x]

/-- `update_face_data` (source lines 102-116): push the new observation
onto each rolling window, refresh `exit_time` and `last_centroid`, and
preserve `entry_time` and `initial_centroid`. -/
def update_face_data (old : FaceData) (now : ℚ) (new_age : ℤ)
    (new_gender new_emotion : String) (new_centroid : ℤ × ℤ) : FaceData :=
  { entry_time := old.entry_time
    exit_time := now
    age_queue := dequeAppend TRACKING_WINDOW old.age_queue new_age
    gender_queue := dequeAppend TRACKING_WINDOW old.gender_queue new_gender
    emotion_queue := dequeAppend TRACKING_WINDOW old.emotion_queue new_emotion
    initial_centroid := old.initial_centroid
    last_centroid := new_centroid }

/-- The fresh `active_faces` entry built for an unmatched detection
(source lines 324-343): one observation in each window, identical entry
and exit time, identical initial and last centroid. -/
def newFaceData (now : ℚ) (age : ℤ) (gender emotion : String)
    (centroid : ℤ × ℤ) : FaceData :=
  { entry_time := now
    exit_time := now
    age_queue := [age]
    gender_queue := [gender]
    emotion_queue := [emotion]
    initial_centroid := centroid
    last_centroid := centroid }

/-- `np.linspace(1, 2, num=n)`: `n` evenly spaced weights from 1 to 2;
`[]` for `n = 0`, `[1]` for `n = 1`. -/
def linWeights (n : ℕ) : List ℚ :=
  if n ≤ 1 then List.replicate n 1
  else (List.range n).map (fun i => 1 + (i : ℚ) / ((n : ℚ) - 1))

/-- `sum(w for w, g in zip(weights, gender_queue) if g == target)`
(source lines 126-127). -/
def genderScore (target : String) (q : List String) : ℚ :=
  (List.zipWith (fun w g => if g = target then w else 0)
    (linWeights q.length) q).sum

/-- `weighted_gender_vote` (source lines 118-128): time-weighted vote
with linear weights; "F" only on a strictly larger female score. -/
def weighted_gender_vote (gender_queue : List String) : String :=
  if gender_queue = [] then "Unknown"
  else if genderScore "M" gender_queue < genderScore "F" gender_queue
    then "F" else "M"

/-- Occurrence count of `x` in `q` (one entry of a `collections.Counter`). -/
def countOcc (q : List String) (x : String) : ℕ :=
  (q.filter (fun y => y = x)).length

/-- The distinct values of `q` in order of first occurrence — the key
order of a `collections.Counter` built from `q`. -/
def firstKeys (q : List String) : List String :=
  q.foldl (fun ks x => if x ∈ ks then ks else ks ++ [x]) []

/-- `Counter(q).most_common(1)[0][0]`: a value of maximal count;
`most_common` sorts stably by descending count, so ties go to the value
observed first.  On an empty queue the Python expression would raise an
IndexError; the source only evaluates it on queues holding at least one
observation, and the embedding returns `""` there. -/
def mostCommon (q : List String) : String :=
  match firstKeys q with
  | [] => ""
  | k :: ks => ks.foldl (fun best x =>
      if countOcc q best < countOcc q x then x else best) k

/-- Python `int()` applied to a rational: truncation toward zero. -/
def pyTrunc (x : ℚ) : ℤ := if 0 ≤ x then ⌊x⌋ else ⌈x⌉

/-- `min(100, int((duration/10)*100))` (source line 368). -/
def engagementScore (duration : ℚ) : ℤ :=
  min 100 (pyTrunc (duration / 10 * 100))

/-- Insertion sort, standing in for the ascending sort inside
`np.median`. -/
def insertAsc (x : ℤ) : List ℤ → List ℤ
  | [] => [x]
  | y :: ys => if x ≤ y then x :: y :: ys else y :: insertAsc x ys

def sortAsc (l : List ℤ) : List ℤ := l.foldr insertAsc []

/-- `np.median` over the age window: middle element of the sorted list,
or the mean of the two middle elements for an even length. -/
def npMedian (l : List ℤ) : ℚ :=
  let s := sortAsc l
  let n := s.length
  if n = 0 then 0
  else if n % 2 = 1 then ((s.getD (n / 2) 0 : ℤ) : ℚ)
  else (((s.getD (n / 2 - 1) 0 : ℤ) : ℚ) + ((s.getD (n / 2) 0 : ℤ) : ℚ)) / 2

/-- The finalized engagement record (source lines 361-369).  The source
serializes `entry` and `exit` through `datetime.strftime` and rounds
`duration` to one decimal for display; the embedding keeps the exact
numeric values, which the serialized fields are functions of. -/
structure EngagementRecord where
  entry : ℚ
  exit : ℚ
  duration : ℚ
  age : ℚ
  gender : String
  emotion : String
  engagement_score : ℤ
  deriving DecidableEq, Repr

/-- Finalization of one expired identity (source lines 357-369): an
`EngagementRecord` is produced exactly when `calculate_engagement`
holds, with the most frequent gender and emotion (`Counter.most_common`)
and the capped truncated score. -/
def finalizeFace (d : FaceData) : Option EngagementRecord :=
  if calculate_engagement d then
    some { entry := d.entry_time
           exit := d.exit_time
           duration := d.exit_time - d.entry_time
           age := npMedian d.age_queue
           gender := mostCommon d.gender_queue
           emotion := mostCommon d.emotion_queue
           engagement_score := engagementScore (d.exit_time - d.entry_time) }
  else none

/-- One record of the persisted `engagement_data.json` audience list, as
serialized by the source (lines 361-369): `entry` and `exit` are the
formatted timestamp strings. -/
structure SavedRecord where
  entry : String
  exit : String
  duration : ℚ
  age : ℚ
  gender : String
  emotion : String
  engagement_score : ℤ
  deriving DecidableEq, Repr

/-- The set of entry timestamps of the already persisted records
(source lines 181-186). -/
def existingEntries (existing : List SavedRecord) : List String :=
  existing.map SavedRecord.entry

/-- The merge inside `save_engagement_data` (source lines 176-194): keep
every persisted record and append exactly those pending records whose
entry timestamp is not among the persisted entry timestamps. -/
def mergeRecords (existing final_records : List SavedRecord) : List SavedRecord :=
  existing ++
    final_records.filter (fun r => decide (r.entry ∉ existingEntries existing))

/-- Observable outcome of one `save_engagement_data` call (source lines
172-253), with the result of the file write made explicit.  The write
(lines 246-248) has no surrounding try/except: when it raises, the
statements after it — the success log line and `final_records = []` —
do not run, the log gains no entry, and the exception escapes to the
caller. -/
structure SaveOutcome where
  final_records : List SavedRecord
  persisted : Option (List SavedRecord)
  logs : List String
  raised : Bool
  deriving DecidableEq, Repr

/-- `save_engagement_data` as a function of the persisted records, the
pending `final_records` buffer and the write outcome. -/
def save_engagement_data (existing final_records : List SavedRecord)
    (writeOk : Bool) : SaveOutcome :=
  let combined := mergeRecords existing final_records
  if writeOk then
    { final_records := []
      persisted := some combined
      logs := ["Saved engagement data"]
      raised := false }
  else
    { final_records := final_records
      persisted := none
      logs := []
      raised := true }

/-- Face centroid `((x1 + x2) // 2, (y1 + y2) // 2)` with Python floor
division (source lines 301 and 309). -/
def boxCentroid (b : Box) : ℤ × ℤ :=
  (Int.fdiv (b.1 + b.2.2.1) 2, Int.fdiv (b.2.1 + b.2.2.2) 2)

/-- Squared Euclidean distance between two centroids. -/
def distSq (p q : ℤ × ℤ) : ℤ := (p.1 - q.1) ^ 2 + (p.2 - q.2) ^ 2

/-- One frame detection after filtering: its bounding box and the
classifier triple returned by `process_face`. -/
structure Detection where
  box : Box
  age : ℤ
  gender : String
  emotion : String
  deriving DecidableEq, Repr

def detCentroid (d : Detection) : ℤ × ℤ := boxCentroid d.box

/-- The matching scan (source lines 303-317): iterate over the active
faces in insertion order, tracking the least centroid distance seen so
far, starting from `min_dist = STABILITY_THRESHOLD`; only a strictly
smaller distance replaces the candidate.  Distances are compared
squared. -/
def bestMatch (faces : List (Box × FaceData)) (c : ℤ × ℤ) :
    Option (Box × FaceData) :=
  (faces.foldl
    (fun acc kv =>
      if distSq c (boxCentroid kv.1) < acc.1
        then (distSq c (boxCentroid kv.1), some kv) else acc)
    ((STABILITY_THRESHOLD ^ 2, none) : ℤ × Option (Box × FaceData))).2

/-- `active_faces.pop(key)` on the insertion-ordered dict. -/
def dictPop (faces : List (Box × FaceData)) (k : Box) :
    List (Box × FaceData) :=
  faces.filter (fun kv => decide (kv.1 ≠ k))

/-- `active_faces[key] = v` on the insertion-ordered dict: replace in
place when the key is present, append otherwise. -/
def dictInsert (faces : List (Box × FaceData)) (k : Box) (v : FaceData) :
    List (Box × FaceData) :=
  if k ∈ faces.map Prod.fst
    then faces.map (fun kv => if kv.1 = k then (k, v) else kv)
    else faces ++ [(k, v)]

/-- Processing of one filtered detection (source lines 303-344): match
it to the closest active face within the stability threshold; on a
match, pop that face and re-insert its updated data under the new
bounding-box key; otherwise insert a fresh identity under that key. -/
def processDetection (faces : List (Box × FaceData)) (d : Detection)
    (now : ℚ) : List (Box × FaceData) :=
  let c := detCentroid d
  match bestMatch faces c with
  | some (fid, data) =>
      dictInsert (dictPop faces fid) d.box
        (update_face_data data now d.age d.gender d.emotion c)
  | none =>
      dictInsert faces d.box (newFaceData now d.age d.gender d.emotion c)

/-- The per-frame detection loop (source lines 279-344): fold
`processDetection` over the frame's detections and collect
`updated_ids`. -/
def processFrame (faces : List (Box × FaceData)) (dets : List Detection)
    (now : ℚ) : List (Box × FaceData) × List Box :=
  dets.foldl (fun acc d => (processDetection acc.1 d now, acc.2 ++ [d.box]))
    (faces, [])

/-- The expiry test (source lines 352-354): not updated this frame and
last seen more than 5 seconds ago. -/
def isExpired (updated_ids : List Box) (now : ℚ) (kv : Box × FaceData) :
    Bool :=
  decide (kv.1 ∉ updated_ids) && decide (5 < now - kv.2.exit_time)

/-- The expiry sweep (source lines 350-369): pop every expired identity
and finalize each one that passes `calculate_engagement`, returning the
surviving store and the records appended to `final_records`. -/
def expirySweep (faces : List (Box × FaceData)) (updated_ids : List Box)
    (now : ℚ) : List (Box × FaceData) × List EngagementRecord :=
  ((faces.filter (fun kv => !isExpired updated_ids now kv)),
    (faces.filter (isExpired updated_ids now)).filterMap
      (fun kv => finalizeFace kv.2))

/-- The live-snapshot gender tally of `save_engagement_data` (source
lines 210-222): occurrences of "M" and "F" over the gender windows of
all active faces; other observations are skipped. -/
def snapshotGenderCounts (faces : List (Box × FaceData)) : ℕ × ℕ :=
  faces.foldl
    (fun acc kv =>
      (acc.1 + countOcc kv.2.gender_queue "M",
        acc.2 + countOcc kv.2.gender_queue "F"))
    (0, 0)

/-- `"M" if gender_counts["M"] >= gender_counts["F"] else "F"` (source
line 229), evaluated by the source only while at least one face is
active. -/
def dominant_gender (faces : List (Box × FaceData)) : String :=
  if (snapshotGenderCounts faces).2 ≤ (snapshotGenderCounts faces).1
    then "M" else "F"

/-- The classifier (`model`, `classifier`) seen from `process_face`: a
black box that either yields an (age, gender, emotion) triple or raises. -/
inductive ClassifyResult where
  | ok (age : ℤ) (gender : String) (emotion : String)
  | raises (msg : String)
  deriving DecidableEq, Repr

/-- An input image region: only its pixel count matters to the control
flow of `process_face`. -/
structure FaceImg where
  size : ℕ
  deriving DecidableEq, Repr

/-- `process_face` (source lines 75-100): safe defaults for a missing or
empty crop and for any classifier exception, the classifier triple
otherwise.  Totality of this function is the embedding of "never raises
to its caller". -/
def process_face (face_img : Option FaceImg)
    (classify : FaceImg → ClassifyResult) : ℤ × String × String :=
  match face_img with
  | none => (0, "Unknown", "Neutral")
  | some img =>
    if img.size = 0 then (0, "Unknown", "Neutral")
    else
      match classify img with
      | .ok age gender emotion => (age, gender, emotion)
      | .raises _ => (0, "Unknown", "Neutral")

/-- The invariant of §3 of the specification on one tracked identity:
all three rolling windows hold at most `TRACKING_WINDOW` observations
and the exit time never precedes the entry time. -/
def FaceInv (d : FaceData) : Prop :=
  d.age_queue.length ≤ TRACKING_WINDOW ∧
    d.gender_queue.length ≤ TRACKING_WINDOW ∧
    d.emotion_queue.length ≤ TRACKING_WINDOW ∧
    d.entry_time ≤ d.exit_time

/-- An engaged identity whose gender window mixes both genders with a
tied occurrence count: two "F" observations first, then two "M". -/
def c1face : FaceData :=
  { entry_time := 0, exit_time := 2, age_queue := [25],
    gender_queue := ["F", "F", "M", "M"], emotion_queue := ["Happy"],
    initial_centroid := (100, 100), last_centroid := (100, 100) }

/-- The record the pipeline produces for `c1face`. -/
def c1rec : EngagementRecord :=
  { entry := 0, exit := 2, duration := 2, age := 25, gender := "F",
    emotion := "Happy", engagement_score := 20 }

/-- An engaged identity observed for 1.95 seconds, a duration whose
score lands exactly between two integers before capping. -/
def c2face : FaceData :=
  { entry_time := 0, exit_time := 39/20, age_queue := [30],
    gender_queue := ["M"], emotion_queue := ["Neutral"],
    initial_centroid := (100, 100), last_centroid := (100, 100) }

/-- The record the pipeline produces for `c2face`. -/
def c2rec : EngagementRecord :=
  { entry := 0, exit := 39/20, duration := 39/20, age := 30, gender := "M",
    emotion := "Neutral", engagement_score := 19 }

/-- A pending record. -/
def c4r1 : SavedRecord :=
  { entry := "2025-01-01 12:00:00", exit := "2025-01-01 12:00:02",
    duration := 2, age := 25, gender := "F", emotion := "Happy",
    engagement_score := 20 }

/-- A second pending record with the same entry timestamp string as
`c4r1` but different content. -/
def c4r2 : SavedRecord :=
  { entry := "2025-01-01 12:00:00", exit := "2025-01-01 12:00:03",
    duration := 3, age := 40, gender := "M", emotion := "Neutral",
    engagement_score := 30 }

/-- One tracked identity first seen at time 0 at centroid (25, 25). -/
def c5face : FaceData := newFaceData 0 30 "M" "Neutral" (25, 25)

/-- A store holding only `c5face`, keyed by its bounding box. -/
def c5init : List (Box × FaceData) := [((0, 0, 50, 50), c5face)]

/-- A detection at the tracked identity's position. -/
def c5d1 : Detection := ⟨(0, 0, 50, 50), 31, "F", "Happy"⟩

/-- A second detection of the same frame, 10 pixels to the right. -/
def c5d2 : Detection := ⟨(10, 0, 60, 50), 32, "F", "Sad"⟩

/-- A pending record awaiting persistence. -/
def c6rec : SavedRecord :=
  { entry := "2025-02-02 09:30:00", exit := "2025-02-02 09:30:05",
    duration := 5, age := 33, gender := "M", emotion := "Neutral",
    engagement_score := 50 }

/-- A freshly created identity used to instantiate the store invariant. -/
def c8face : FaceData := newFaceData 0 30 "M" "Neutral" (25, 25)

/-- A gender window with equal time-weighted scores for "M" and "F"
(weights 1, 5/4, 3/2, 7/4, 2 give 3 to each) and a non-gender
observation in the middle. -/
def c10q : List String := ["M", "F", "Other", "F", "M"]

/-- An active identity contributing one "M" and one "F" observation. -/
def c10face : FaceData :=
  { entry_time := 0, exit_time := 0, age_queue := [20],
    gender_queue := ["M", "F"], emotion_queue := ["Happy"],
    initial_centroid := (5, 5), last_centroid := (5, 5) }

/-- A store whose snapshot tally is one "M" against one "F". -/
def c10faces : List (Box × FaceData) := [((0, 0, 10, 10), c10face)]

/-- Appending to a rolling window keeps its length within the capacity. -/
theorem dequeAppend_len {α : Type} (q : List α) (x : α)
    (hq : q.length ≤ TRACKING_WINDOW) :
    (dequeAppend TRACKING_WINDOW q x).length ≤ TRACKING_WINDOW := by
  unfold dequeAppend TRACKING_WINDOW at *
  split <;> rename_i h <;> simp [List.length_tail] <;> omega

/-- A rolling window always ends with the observation just appended. -/
theorem dequeAppend_getLast {α : Type} (q : List α) (x : α) :
    (dequeAppend TRACKING_WINDOW q x).getLast? = some x := by
  unfold dequeAppend
  split <;> exact List.getLast?_concat _

/-- The value passed to a dict insertion is a value of the resulting
dict: at its own key when absent, replacing the old entry otherwise. -/
theorem dictInsert_mem_snd (faces : List (Box × FaceData)) (k : Box)
    (v : FaceData) : v ∈ (dictInsert faces k v).map Prod.snd := by
  unfold dictInsert
  split
  · rename_i h
    obtain ⟨kv, hkv, hfst⟩ := List.mem_map.mp h
    refine List.mem_map.mpr ⟨(k, v), ?_, rfl⟩
    exact List.mem_map.mpr ⟨kv, hkv, by simp [hfst]⟩
  · simp

/-- Replacing a list entry that does not equal `t` by another value
different from `t` leaves the weighted score for `t` unchanged. -/
theorem zipScore_set (t : String) (ws : List ℚ) (q : List String) (i : ℕ)
    (x : String) (hx : x ≠ t) (hq : q.get? i ≠ some t) :
    (List.zipWith (fun w g => if g = t then w else 0) ws (q.set i x)).sum
      = (List.zipWith (fun w g => if g = t then w else 0) ws q).sum := by
  induction q generalizing ws i with
  | nil => simp
  | cons a as ih =>
    cases ws with
    | nil => simp
    | cons w ws' =>
      cases i with
      | zero =>
        have ha : a ≠ t := fun h => hq (by simp [h])
        simp [hx, ha]
      | succ n =>
        have hq' : as.get? n ≠ some t := by simpa using hq
        simp [ih ws' n hq']

/-- `genderScore` ignores a window entry that is not the tallied gender:
overwriting such an entry with another non-`t` value changes nothing. -/
theorem genderScore_set (t : String) (q : List String) (i : ℕ) (x : String)
    (hx : x ≠ t) (hq : q.get? i ≠ some t) :
    genderScore t (q.set i x) = genderScore t q := by
  unfold genderScore
  rw [List.length_set]
  exact zipScore_set t _ q i x hx hq

/-- Evaluation of the pipeline on `c1face`: engaged, and the record
carries the tie-broken most frequent gender "F". -/
theorem c1_finalize : finalizeFace c1face = some c1rec := by
  have hg : mostCommon ["F", "F", "M", "M"] = "F" := by decide
  have he : mostCommon ["Happy"] = "Happy" := by decide
  norm_num [finalizeFace, calculate_engagement, ENGAGEMENT_THRESHOLD,
    STABILITY_THRESHOLD, movementSq, c1face, c1rec, hg, he, npMedian,
    sortAsc, insertAsc, engagementScore, pyTrunc, Int.floor_eq_iff]

/-- Evaluation of the pipeline on `c2face`: engaged, score 19. -/
theorem c2_finalize : finalizeFace c2face = some c2rec := by
  have hg : mostCommon ["M"] = "M" := by decide
  have he : mostCommon ["Neutral"] = "Neutral" := by decide
  norm_num [finalizeFace, calculate_engagement, ENGAGEMENT_THRESHOLD,
    STABILITY_THRESHOLD, movementSq, c2face, c2rec, hg, he, npMedian,
    sortAsc, insertAsc, engagementScore, pyTrunc, Int.floor_eq_iff]

/-- A freshly created identity satisfies the store invariant. -/
theorem c8face_inv : FaceInv c8face := by
  refine ⟨?_, ?_, ?_, le_refl _⟩ <;> simp [c8face, newFaceData, TRACKING_WINDOW]

/-- C1 counterexample: on the gender window ["F","F","M","M"] the
finalized record's gender is "F" (the most frequent gender, tie broken
toward the first observed value) while the time-weighted vote over the
same window yields "M" — so the record's gender field is not the
time-weighted vote. -/
theorem record_gender_not_weighted_vote_cex :
    (finalizeFace c1face).map EngagementRecord.gender = some "F" ∧
      weighted_gender_vote c1face.gender_queue = "M" := by
  constructor
  · rw [c1_finalize]; rfl
  · simp [c1face, weighted_gender_vote, genderScore, linWeights,
      List.range_succ]
    norm_num

/-- C1 (corrected): every finalized record's gender field is the most
frequent gender of the identity's window (`Counter.most_common`, ties
to the earliest observed value); `weighted_gender_vote` computes the
time-weighted vote but is not applied at finalization.  On the windows
["F","F","M"] and ["M","M","M"] both reductions agree with the claimed
results "F" and "M". -/
theorem record_gender_is_most_common (d : FaceData) (r : EngagementRecord)
    (h : finalizeFace d = some r) :
    r.gender = mostCommon d.gender_queue ∧
      mostCommon ["F", "F", "M"] = "F" ∧ mostCommon ["M", "M", "M"] = "M" ∧
      weighted_gender_vote ["F", "F", "M"] = "F" ∧
      weighted_gender_vote ["M", "M", "M"] = "M" := by
  refine ⟨?_, by decide, by decide, ?_, ?_⟩
  · unfold finalizeFace at h
    split_ifs at h
    cases h
    rfl
  · simp [weighted_gender_vote, genderScore, linWeights, List.range_succ]
    norm_num
  · simp [weighted_gender_vote, genderScore, linWeights, List.range_succ]
    norm_num

/-- C1 witness: the gender rule instantiated on the concrete identity
`c1face` and its record `c1rec`. -/
theorem record_gender_is_most_common_witness :
    c1rec.gender = mostCommon c1face.gender_queue ∧
      mostCommon ["F", "F", "M"] = "F" ∧ mostCommon ["M", "M", "M"] = "M" ∧
      weighted_gender_vote ["F", "F", "M"] = "F" ∧
      weighted_gender_vote ["M", "M", "M"] = "M" :=
  record_gender_is_most_common c1face c1rec c1_finalize

/-- C2 counterexample: for a duration of 1.95 seconds the pipeline
stores engagement score 19 (truncation of 19.5) while the claimed
formula `min(100, round(duration/10*100))` yields 20. -/
theorem engagement_score_not_rounded_cex :
    (finalizeFace c2face).map EngagementRecord.engagement_score = some 19 ∧
      min 100 (round ((c2face.exit_time - c2face.entry_time) / 10 * 100))
        = 20 := by
  constructor
  · rw [c2_finalize]; rfl
  · norm_num [c2face, round_eq, Int.floor_eq_iff]

/-- C2 (corrected): every finalized record's engagement score equals
`min(100, int(duration/10*100))` — truncation toward zero (the floor,
since the duration of an engaged identity is nonnegative) rather than
rounding — and the score is an integer between 0 and 100; a duration of
25 s still yields 100 and a duration of 3 s yields 30. -/
theorem engagement_score_truncated (d : FaceData) (r : EngagementRecord)
    (h : finalizeFace d = some r) :
    (r.engagement_score = min 100 ⌊r.duration / 10 * 100⌋ ∧
      0 ≤ r.engagement_score ∧ r.engagement_score ≤ 100) ∧
      engagementScore 25 = 100 ∧ engagementScore 3 = 30 := by
  refine ⟨?_, ?_, ?_⟩
  · unfold finalizeFace at h
    split_ifs at h with hc
    · obtain ⟨hdur, _⟩ := by
        simpa [calculate_engagement, ENGAGEMENT_THRESHOLD] using hc
      cases h
      have hpos : (0:ℚ) ≤ (d.exit_time - d.entry_time) / 10 * 100 := by
        nlinarith
      have htr : pyTrunc ((d.exit_time - d.entry_time) / 10 * 100)
          = ⌊(d.exit_time - d.entry_time) / 10 * 100⌋ := by
        simp [pyTrunc, hpos]
      refine ⟨by simp [engagementScore, htr], ?_, min_le_left _ _⟩
      show 0 ≤ engagementScore (d.exit_time - d.entry_time)
      rw [engagementScore, htr]
      exact le_min (by norm_num) (Int.floor_nonneg.mpr hpos)
  · norm_num [engagementScore, pyTrunc, Int.floor_eq_iff]
  · norm_num [engagementScore, pyTrunc, Int.floor_eq_iff]

/-- C2 witness: the score rule instantiated on the concrete identity
`c2face` and its record `c2rec`. -/
theorem engagement_score_truncated_witness :
    (c2rec.engagement_score = min 100 ⌊c2rec.duration / 10 * 100⌋ ∧
      0 ≤ c2rec.engagement_score ∧ c2rec.engagement_score ≤ 100) ∧
      engagementScore 25 = 100 ∧ engagementScore 3 = 30 :=
  engagement_score_truncated c2face c2rec c2_finalize

/-- C3 (confirmed): an expired identity yields an engagement record
exactly when its duration reaches the minimum attention duration of
1.5 s and the squared displacement between its initial and last
centroid stays within the squared 80-pixel stability threshold; failing
either condition yields no record regardless of the other. -/
theorem engagement_record_iff (d : FaceData) :
    (finalizeFace d).isSome = true ↔
      ((3:ℚ)/2 ≤ d.exit_time - d.entry_time ∧ movementSq d ≤ 80 ^ 2) := by
  unfold finalizeFace calculate_engagement ENGAGEMENT_THRESHOLD
    STABILITY_THRESHOLD
  split_ifs with h
  · simpa using h
  · simpa using h

/-- C4 counterexample: two pending records sharing one entry timestamp
are both appended by a single flush of an empty log, so the merge does
store two records with the same entry timestamp. -/
theorem merge_batch_duplicate_cex :
    mergeRecords [] [c4r1, c4r2] = [c4r1, c4r2] ∧
      c4r1.entry = c4r2.entry ∧ c4r1 ≠ c4r2 := by
  refine ⟨?_, rfl, ?_⟩
  · simp [mergeRecords, existingEntries]
  · intro h
    exact absurd (congrArg SavedRecord.gender h) (by decide)

/-- C4 (corrected): the merge appends a pending record only when its
entry timestamp is absent from the already persisted records, and
flushing the same pending set twice leaves the persisted list (hence
its count) unchanged; deduplication is only against persisted records,
not within the pending batch. -/
theorem merge_idempotent (existing pending : List SavedRecord) :
    mergeRecords (mergeRecords existing pending) pending
        = mergeRecords existing pending ∧
      ∀ r ∈ (mergeRecords existing pending).drop existing.length,
        r.entry ∉ existingEntries existing := by
  constructor
  · have hnil : pending.filter
        (fun r => decide
          (r.entry ∉ existingEntries (mergeRecords existing pending)))
          = [] := by
      rw [List.filter_eq_nil_iff]
      intro r hr
      simp only [decide_eq_true_eq, not_not]
      by_cases hx : r.entry ∈ existingEntries existing
      · simp only [mergeRecords, existingEntries, List.map_append,
          List.mem_append]
        exact Or.inl hx
      · have hrf : r ∈ pending.filter
            (fun r => decide (r.entry ∉ existingEntries existing)) :=
          List.mem_filter.mpr ⟨hr, by simpa using hx⟩
        simp only [mergeRecords, existingEntries, List.map_append,
          List.mem_append]
        right
        exact List.mem_map.mpr ⟨r, hrf, rfl⟩
    rw [mergeRecords, hnil, List.append_nil]
  · intro r hr
    rw [mergeRecords, List.drop_left] at hr
    have := (List.mem_filter.mp hr).2
    simpa using this

/-- C5 counterexample: a frame with two detections near one tracked
identity ends with a single identity whose windows grew by two
observations — the second detection was assigned to the identity the
first detection had already matched. -/
theorem identity_matched_twice_cex :
    (processFrame c5init [c5d1, c5d2] 1).1 =
      [((10, 0, 60, 50),
        { entry_time := 0, exit_time := 1, age_queue := [30, 31, 32],
          gender_queue := ["M", "F", "F"],
          emotion_queue := ["Neutral", "Happy", "Sad"],
          initial_centroid := (25, 25), last_centroid := (35, 25) })] := by
  rfl

/-- C5 (corrected): a matched identity is re-inserted into the active
store under its new bounding-box key, so it remains a candidate that a
later detection of the same frame can match again — identities are not
consumed after one match per frame. -/
theorem matched_identity_still_candidate (faces : List (Box × FaceData))
    (d : Detection) (now : ℚ) (fid : Box) (data : FaceData)
    (h : bestMatch faces (detCentroid d) = some (fid, data)) :
    update_face_data data now d.age d.gender d.emotion (detCentroid d)
      ∈ (processDetection faces d now).map Prod.snd := by
  simp only [processDetection]
  rw [h]
  exact dictInsert_mem_snd _ _ _

/-- C5 witness: the re-insertion fact instantiated on the concrete
store `c5init` and detection `c5d1`. -/
theorem matched_identity_still_candidate_witness :
    update_face_data c5face 1 c5d1.age c5d1.gender c5d1.emotion
        (detCentroid c5d1)
      ∈ (processDetection c5init c5d1 1).map Prod.snd :=
  matched_identity_still_candidate c5init c5d1 1 (0, 0, 50, 50) c5face rfl

/-- C6 counterexample: when the write fails, the save routine emits no
log entry and the exception escapes to the caller — the failure is not
logged inside the flush as the claim states. -/
theorem write_failure_not_logged_cex :
    (save_engagement_data [] [c6rec] false).raised = true ∧
      (save_engagement_data [] [c6rec] false).logs = [] ∧
      (save_engagement_data [] [c6rec] false).final_records = [c6rec] := by
  simp [save_engagement_data]

/-- C6 (corrected): the pending buffer is cleared only after the write
has succeeded — on a failing write the buffer is unchanged, nothing is
persisted, no success log line is emitted and the exception propagates
uncaught (the source has no handler around the write, so the failure is
not logged and the periodic loop terminates; a final flush in cleanup
retries the buffer once). -/
theorem buffer_cleared_only_after_write (existing buf : List SavedRecord) :
    (save_engagement_data existing buf false).final_records = buf ∧
      (save_engagement_data existing buf false).persisted = none ∧
      (save_engagement_data existing buf false).raised = true ∧
      (save_engagement_data existing buf false).logs = [] ∧
      (save_engagement_data existing buf true).final_records = [] ∧
      (save_engagement_data existing buf true).persisted
        = some (mergeRecords existing buf) := by
  simp [save_engagement_data]

/-- C7 (confirmed): re-matching updates an identity by appending one
observation to each rolling window (evicting the oldest at capacity),
setting the exit time to now and the last centroid to the detection's
centroid while preserving the entry time and the initial centroid; an
unmatched detection creates an identity whose entry and exit time are
both now, whose centroids both equal the detection's centroid and whose
windows hold exactly the one new observation. -/
theorem upsert_frame_effect (old : FaceData) (now : ℚ) (a : ℤ)
    (g e : String) (c : ℤ × ℤ) :
    ((update_face_data old now a g e c).entry_time = old.entry_time ∧
      (update_face_data old now a g e c).exit_time = now ∧
      (update_face_data old now a g e c).initial_centroid
        = old.initial_centroid ∧
      (update_face_data old now a g e c).last_centroid = c ∧
      (update_face_data old now a g e c).age_queue =
        (if old.age_queue.length = TRACKING_WINDOW
          then old.age_queue.tail else old.age_queue) ++ [a] ∧
      (update_face_data old now a g e c).gender_queue =
        (if old.gender_queue.length = TRACKING_WINDOW
          then old.gender_queue.tail else old.gender_queue) ++ [g] ∧
      (update_face_data old now a g e c).emotion_queue =
        (if old.emotion_queue.length = TRACKING_WINDOW
          then old.emotion_queue.tail else old.emotion_queue) ++ [e]) ∧
    ((newFaceData now a g e c).entry_time = now ∧
      (newFaceData now a g e c).exit_time = now ∧
      (newFaceData now a g e c).initial_centroid = c ∧
      (newFaceData now a g e c).last_centroid = c ∧
      (newFaceData now a g e c).age_queue = [a] ∧
      (newFaceData now a g e c).gender_queue = [g] ∧
      (newFaceData now a g e c).emotion_queue = [e]) := by
  refine ⟨⟨rfl, rfl, rfl, rfl, ?_, ?_, ?_⟩,
    rfl, rfl, rfl, rfl, rfl, rfl, rfl⟩ <;>
    · show dequeAppend _ _ _ = _
      unfold dequeAppend
      split <;> rfl

/-- C8 (confirmed): identity creation, re-match update (at a time not
before the identity's entry time) and the expiry sweep all preserve the
tracked-store invariant — each rolling window holds at most
`TRACKING_WINDOW` observations and the exit time never precedes the
entry time. -/
theorem tracking_invariant_preserved (old : FaceData) (now : ℚ) (a : ℤ)
    (g e : String) (c : ℤ × ℤ) (faces : List (Box × FaceData))
    (updated_ids : List Box) (t : ℚ) (hold : FaceInv old)
    (hnow : old.entry_time ≤ now) (hfaces : ∀ kv ∈ faces, FaceInv kv.2) :
    FaceInv (newFaceData now a g e c) ∧
      FaceInv (update_face_data old now a g e c) ∧
      ∀ kv ∈ (expirySweep faces updated_ids t).1, FaceInv kv.2 := by
  obtain ⟨h1, h2, h3, _⟩ := hold
  refine ⟨⟨?_, ?_, ?_, le_refl _⟩,
    ⟨dequeAppend_len _ _ h1, dequeAppend_len _ _ h2,
      dequeAppend_len _ _ h3, hnow⟩, ?_⟩
  · simp [newFaceData, TRACKING_WINDOW]
  · simp [newFaceData, TRACKING_WINDOW]
  · simp [newFaceData, TRACKING_WINDOW]
  · intro kv hkv
    exact hfaces kv (List.mem_filter.mp hkv).1

/-- C8 witness: the invariant preservation instantiated on the concrete
identity `c8face` and a one-entry store. -/
theorem tracking_invariant_preserved_witness :
    FaceInv (newFaceData 1 31 "F" "Happy" (30, 30)) ∧
      FaceInv (update_face_data c8face 1 31 "F" "Happy" (30, 30)) ∧
      ∀ kv ∈ (expirySweep [((0, 0, 50, 50), c8face)] [] 7).1, FaceInv kv.2 :=
  tracking_invariant_preserved c8face 1 31 "F" "Happy" (30, 30)
    [((0, 0, 50, 50), c8face)] [] 7 c8face_inv
    (by norm_num [c8face, newFaceData])
    (by intro kv hkv
        rw [List.mem_singleton] at hkv
        subst hkv
        exact c8face_inv)

/-- C9 (confirmed): the per-face classification is total — for a
missing crop, an empty crop, or a raising classifier it returns exactly
the safe defaults (age 0, gender "Unknown", emotion "Neutral") instead
of raising — and every detection, whatever its classifier output, still
updates tracking: after processing, some active identity carries the
detection's centroid as its last centroid and the detection's gender
and emotion as its newest window observations. -/
theorem process_face_safe_defaults (classify : FaceImg → ClassifyResult)
    (img : FaceImg) (msg : String) (faces : List (Box × FaceData))
    (d : Detection) (now : ℚ) :
    process_face none classify = (0, "Unknown", "Neutral") ∧
      (img.size = 0 →
        process_face (some img) classify = (0, "Unknown", "Neutral")) ∧
      (classify img = .raises msg →
        process_face (some img) classify = (0, "Unknown", "Neutral")) ∧
      ∃ kv ∈ processDetection faces d now,
        kv.2.last_centroid = detCentroid d ∧
        kv.2.gender_queue.getLast? = some d.gender ∧
        kv.2.emotion_queue.getLast? = some d.emotion := by
  refine ⟨rfl, fun h => by simp [process_face, h],
    fun h => by by_cases hs : img.size = 0 <;> simp [process_face, hs, h], ?_⟩
  cases hb : bestMatch faces (detCentroid d) with
  | none =>
    obtain ⟨kv, hkv, hsnd⟩ := List.mem_map.mp
      (dictInsert_mem_snd faces d.box
        (newFaceData now d.age d.gender d.emotion (detCentroid d)))
    refine ⟨kv, ?_, ?_⟩
    · simpa only [processDetection, hb] using hkv
    · rw [hsnd]
      exact ⟨rfl, rfl, rfl⟩
  | some p =>
    obtain ⟨fid, data⟩ := p
    obtain ⟨kv, hkv, hsnd⟩ := List.mem_map.mp
      (dictInsert_mem_snd (dictPop faces fid) d.box
        (update_face_data data now d.age d.gender d.emotion (detCentroid d)))
    refine ⟨kv, ?_, ?_⟩
    · simpa only [processDetection, hb] using hkv
    · rw [hsnd]
      exact ⟨rfl, dequeAppend_getLast _ _, dequeAppend_getLast _ _⟩

/-- C10 (confirmed): on a non-empty gender window whose accumulated
female and male weights tie, the weighted vote returns "M"; an
observation that is neither "M" nor "F" contributes to neither score
(replacing it by another non-gender value changes no score); the empty
window votes "Unknown"; and the live snapshot's dominant gender is "M"
whenever the active "M" and "F" tallies are equal. -/
theorem gender_tie_goes_male (q : List String) (i : ℕ) (x : String)
    (faces : List (Box × FaceData)) (hq : q ≠ [])
    (htie : genderScore "F" q = genderScore "M" q)
    (hxM : x ≠ "M") (hxF : x ≠ "F")
    (hiM : q.get? i ≠ some "M") (hiF : q.get? i ≠ some "F")
    (hcnt : (snapshotGenderCounts faces).1 = (snapshotGenderCounts faces).2) :
    weighted_gender_vote q = "M" ∧
      genderScore "M" (q.set i x) = genderScore "M" q ∧
      genderScore "F" (q.set i x) = genderScore "F" q ∧
      weighted_gender_vote [] = "Unknown" ∧
      dominant_gender faces = "M" := by
  refine ⟨?_, genderScore_set _ _ _ _ hxM hiM,
    genderScore_set _ _ _ _ hxF hiF, rfl, ?_⟩
  · unfold weighted_gender_vote
    rw [if_neg hq, if_neg (by rw [htie]; exact lt_irrefl _)]
  · unfold dominant_gender
    rw [if_pos (le_of_eq hcnt.symm)]

/-- C10 witness: the tie-breaking facts instantiated on the concrete
window `c10q` (tied weighted scores, a non-gender entry at index 2) and
the concrete store `c10faces` (tied snapshot tallies). -/
theorem gender_tie_goes_male_witness :
    weighted_gender_vote c10q = "M" ∧
      genderScore "M" (c10q.set 2 "X") = genderScore "M" c10q ∧
      genderScore "F" (c10q.set 2 "X") = genderScore "F" c10q ∧
      weighted_gender_vote [] = "Unknown" ∧
      dominant_gender c10faces = "M" :=
  gender_tie_goes_male c10q 2 "X" c10faces (by decide)
    (by simp [c10q, genderScore, linWeights, List.range_succ]; norm_num)
    (by decide) (by decide) (by decide) (by decide) (by decide)

end EngagementAnalyzer
